import Mathlib

/-!
Verification of the `rigid` screen-capture and video-composition engine.

The repository exposes two C FFI headers, `RigidCaptureKit.h` and
`TakaCaptureKit.h`, which declare the public interface: error codes, codec
constants and the capture / screenshot / compositor entry points.  The headers
are embedded below as data (signatures, enumerations, constants).  The engine
behind the headers is not part of the repository snapshot, so its behaviour
(session state machine, composition-graph validation, render loop) is modelled
from the design document, with each such definition marked
`Modelled from the spec:`.
-/

namespace Rigid

/-- C scalar / pointer types as they occur in the two FFI headers. -/
inductive CType where
  | u32
  | i32
  | i64
  | f32
  | boolTy
  | charPtr
  | constCharPtr
  | handle
  | voidTy
  | progressCb
  | completionCb
deriving DecidableEq

/-- One C function declaration: its name, parameter types in order, and
return type. -/
structure CFun where
  name : String
  params : List CType
  ret : CType
deriving DecidableEq

/-- `RigidErrorCode` from `RigidCaptureKit.h` lines 8-18. -/
inductive RigidErrorCode where
  | success
  | notAuthorized
  | invalidConfig
  | recordingFailed
  | encodingFailed
  | noRecording
  | screenshotFailed
  | windowNotFound
  | displayNotFound
deriving DecidableEq

/-- The integer value of each `RigidErrorCode` enumerator, as fixed in the
header. -/
def RigidErrorCode.code : RigidErrorCode → Int
  | .success => 0
  | .notAuthorized => 1
  | .invalidConfig => 2
  | .recordingFailed => 3
  | .encodingFailed => 4
  | .noRecording => 5
  | .screenshotFailed => 6
  | .windowNotFound => 7
  | .displayNotFound => 8

/-- All enumerators of `RigidErrorCode`, in header order. -/
def rigidErrorCodes : List RigidErrorCode :=
  [.success, .notAuthorized, .invalidConfig, .recordingFailed, .encodingFailed,
   .noRecording, .screenshotFailed, .windowNotFound, .displayNotFound]

/-- `TakaErrorCode` from `TakaCaptureKit.h` lines 8-18. -/
inductive TakaErrorCode where
  | success
  | notAuthorized
  | invalidConfig
  | recordingFailed
  | encodingFailed
  | noRecording
  | screenshotFailed
  | windowNotFound
  | displayNotFound
deriving DecidableEq

/-- The integer value of each `TakaErrorCode` enumerator, as fixed in the
header. -/
def TakaErrorCode.code : TakaErrorCode → Int
  | .success => 0
  | .notAuthorized => 1
  | .invalidConfig => 2
  | .recordingFailed => 3
  | .encodingFailed => 4
  | .noRecording => 5
  | .screenshotFailed => 6
  | .windowNotFound => 7
  | .displayNotFound => 8

/-- All enumerators of `TakaErrorCode`, in header order. -/
def takaErrorCodes : List TakaErrorCode :=
  [.success, .notAuthorized, .invalidConfig, .recordingFailed, .encodingFailed,
   .noRecording, .screenshotFailed, .windowNotFound, .displayNotFound]

/-- `RIGID_CODEC_H264` from `RigidCaptureKit.h` line 21. -/
def RIGID_CODEC_H264 : Int := 0

/-- `RIGID_CODEC_HEVC` from `RigidCaptureKit.h` line 22. -/
def RIGID_CODEC_HEVC : Int := 1

/-- `RIGID_CODEC_PRORES_422` from `RigidCaptureKit.h` line 23. -/
def RIGID_CODEC_PRORES_422 : Int := 2

/-- `RIGID_CODEC_PRORES_422_HQ` from `RigidCaptureKit.h` line 24. -/
def RIGID_CODEC_PRORES_422_HQ : Int := 3

/-- `TAKA_CODEC_H264` from `TakaCaptureKit.h` line 21. -/
def TAKA_CODEC_H264 : Int := 0

/-- `TAKA_CODEC_HEVC` from `TakaCaptureKit.h` line 22. -/
def TAKA_CODEC_HEVC : Int := 1

/-- `TAKA_CODEC_PRORES_422` from `TakaCaptureKit.h` line 23. -/
def TAKA_CODEC_PRORES_422 : Int := 2

/-- `TAKA_CODEC_PRORES_422_HQ` from `TakaCaptureKit.h` line 24. -/
def TAKA_CODEC_PRORES_422_HQ : Int := 3

/-- Parameter types of the `RigidCompositorProgressCallback` typedef
(`RigidCaptureKit.h` line 193): export_id, percent, current_frame,
total_frames. -/
def rigidCompositorProgressCallbackParams : List CType :=
  [.constCharPtr, .f32, .i64, .i64]

/-- Parameter types of the `RigidCompositorCompletionCallback` typedef
(`RigidCaptureKit.h` line 197): export_id, error_code,
output_path_or_error. -/
def rigidCompositorCompletionCallbackParams : List CType :=
  [.constCharPtr, .i32, .constCharPtr]

/-- Every function declared in `RigidCaptureKit.h`, in order of appearance,
with its exact parameter and return types. -/
def rigidFunctions : List CFun :=
  [⟨"rigid_capture_create", [], .handle⟩,
   ⟨"rigid_capture_destroy", [.handle], .voidTy⟩,
   ⟨"rigid_capture_check_permission", [], .boolTy⟩,
   ⟨"rigid_capture_request_permission", [], .voidTy⟩,
   ⟨"rigid_capture_list_windows_json", [], .charPtr⟩,
   ⟨"rigid_capture_list_displays_json", [], .charPtr⟩,
   ⟨"rigid_free_string", [.charPtr], .voidTy⟩,
   ⟨"rigid_capture_start_window_recording",
     [.handle, .u32, .constCharPtr, .u32, .u32, .u32, .u32, .u32, .i32,
      .boolTy, .boolTy, .f32], .i32⟩,
   ⟨"rigid_capture_start_display_recording",
     [.handle, .u32, .constCharPtr, .u32, .u32, .u32, .u32, .u32, .i32,
      .boolTy, .boolTy, .f32], .i32⟩,
   ⟨"rigid_capture_start_region_recording",
     [.handle, .u32, .i32, .i32, .i32, .i32, .constCharPtr, .u32, .u32, .u32,
      .i32, .boolTy, .boolTy, .f32], .i32⟩,
   ⟨"rigid_capture_stop_recording", [.handle], .i32⟩,
   ⟨"rigid_capture_cancel_recording", [.handle], .i32⟩,
   ⟨"rigid_capture_is_recording", [.handle], .boolTy⟩,
   ⟨"rigid_capture_get_recording_duration_ms", [.handle], .i64⟩,
   ⟨"rigid_capture_screenshot_window",
     [.u32, .constCharPtr, .f32, .boolTy], .i32⟩,
   ⟨"rigid_capture_screenshot_display",
     [.u32, .constCharPtr, .f32, .boolTy], .i32⟩,
   ⟨"rigid_capture_screenshot_region",
     [.u32, .i32, .i32, .i32, .i32, .constCharPtr, .f32, .boolTy], .i32⟩,
   ⟨"rigid_compositor_render",
     [.constCharPtr, .constCharPtr, .progressCb], .i32⟩,
   ⟨"rigid_compositor_render_async",
     [.constCharPtr, .constCharPtr, .progressCb, .completionCb], .i32⟩,
   ⟨"rigid_compositor_cancel", [], .voidTy⟩]

/-- Every function declared in `TakaCaptureKit.h`, in order of appearance,
with its exact parameter and return types. -/
def takaFunctions : List CFun :=
  [⟨"taka_capture_create", [], .handle⟩,
   ⟨"taka_capture_destroy", [.handle], .voidTy⟩,
   ⟨"taka_capture_check_permission", [], .boolTy⟩,
   ⟨"taka_capture_request_permission", [], .voidTy⟩,
   ⟨"taka_capture_list_windows_json", [], .charPtr⟩,
   ⟨"taka_capture_list_displays_json", [], .charPtr⟩,
   ⟨"taka_free_string", [.charPtr], .voidTy⟩,
   ⟨"taka_capture_start_window_recording",
     [.handle, .u32, .constCharPtr, .u32, .u32, .u32, .u32, .u32, .i32,
      .boolTy, .boolTy, .f32], .i32⟩,
   ⟨"taka_capture_start_display_recording",
     [.handle, .u32, .constCharPtr, .u32, .u32, .u32, .u32, .u32, .i32,
      .boolTy, .boolTy, .f32], .i32⟩,
   ⟨"taka_capture_start_region_recording",
     [.handle, .u32, .i32, .i32, .i32, .i32, .constCharPtr, .u32, .u32, .u32,
      .i32, .boolTy, .boolTy, .f32], .i32⟩,
   ⟨"taka_capture_stop_recording", [.handle], .i32⟩,
   ⟨"taka_capture_cancel_recording", [.handle], .i32⟩,
   ⟨"taka_capture_is_recording", [.handle], .boolTy⟩,
   ⟨"taka_capture_get_recording_duration_ms", [.handle], .i64⟩,
   ⟨"taka_capture_screenshot_window",
     [.u32, .constCharPtr, .f32, .boolTy], .i32⟩,
   ⟨"taka_capture_screenshot_display",
     [.u32, .constCharPtr, .f32, .boolTy], .i32⟩,
   ⟨"taka_capture_screenshot_region",
     [.u32, .i32, .i32, .i32, .i32, .constCharPtr, .f32, .boolTy], .i32⟩]

/-- The compositor entry points, present only in `RigidCaptureKit.h`. -/
def isCompositorFun (f : CFun) : Bool :=
  f.name == "rigid_compositor_render" ||
  f.name == "rigid_compositor_render_async" ||
  f.name == "rigid_compositor_cancel"

/-- The prefix renaming between the two kits: a `rigid_...` symbol becomes
the corresponding `taka_...` symbol. -/
def renameRigidTaka (s : String) : String := "taka" ++ s.drop 5

/-- Rename a whole declaration, keeping its parameter and return types. -/
def renameFun (f : CFun) : CFun := ⟨renameRigidTaka f.name, f.params, f.ret⟩

/-- Look up a declaration by name. -/
def findFun (fs : List CFun) (n : String) : Option CFun :=
  fs.find? (fun f => f.name == n)

/-! ## Spec-modelled capture engine

The engine behind the headers is not in the repository snapshot; the
definitions below model it from the design document (§3-§4.3, §7). -/

/-- Modelled from the spec: `CaptureTarget` (§3), the tagged variant
Window / Display / Region.  The region coordinates are signed, as in the
`..._region_...` entry points of the header. -/
inductive CaptureTarget where
  | window (id : Nat)
  | display (id : Nat)
  | region (displayId : Nat) (x y width height : Int)
deriving DecidableEq

/-- Modelled from the spec: `RecordingConfig` (§3).  The unsigned header
parameters are `Nat`; the codec is the `int32_t` codec constant; the scale
factor is kept as an exact rational. -/
structure RecordingConfig where
  outputPath : String
  width : Nat
  height : Nat
  fps : Nat
  bitrate : Nat
  keyframeInterval : Nat
  codec : Int
  captureCursor : Bool
  captureAudio : Bool
  scaleFactor : ℚ
deriving DecidableEq

/-- Modelled from the spec: a live `RecordingSession` (§3) binds the resolved
target and the immutable config. -/
structure RecordingSession where
  target : CaptureTarget
  config : RecordingConfig
deriving DecidableEq

/-- Modelled from the spec: the per-handle engine state (§3, §4.2): a
`CaptureHandle` owns zero or one `RecordingSession`; `none` is the `Idle`
state of the session state machine, `some` is `Recording`. -/
structure Engine where
  session : Option RecordingSession
deriving DecidableEq

/-- Modelled from the spec: the platform environment a call runs against —
whether permission is granted, which window / display ids resolve, whether
the capture stream and encoder can be opened, whether encoder finalize
succeeds, and which compositor source media are resolvable. -/
structure Env where
  permissionGranted : Bool
  windows : List Nat
  displays : List Nat
  captureOpens : Bool
  finalizeOk : Bool
  encodeOk : Bool
  mediaSources : List String
deriving DecidableEq

/-- A file-system effect performed by a call: creating/writing the file at a
path, or deleting it. -/
inductive FileEvent where
  | write (path : String)
  | delete (path : String)
deriving DecidableEq

/-- Result of one control call: the returned status code, the engine state
after the call, and the file effects performed. -/
structure StepResult where
  code : RigidErrorCode
  engine : Engine
  fileOps : List FileEvent
deriving DecidableEq

/-- Modelled from the spec: the supported codec set (§3):
H264, HEVC, ProRes422, ProRes422HQ, i.e. the four header constants. -/
def supportedCodec (c : Int) : Bool :=
  c == RIGID_CODEC_H264 || c == RIGID_CODEC_HEVC ||
  c == RIGID_CODEC_PRORES_422 || c == RIGID_CODEC_PRORES_422_HQ

/-- Modelled from the spec: the `RecordingConfig` invariants (§3, §4.2):
positive dimensions, fps, bitrate and scale factor, keyframe interval at
least 1, supported codec. -/
def validRecordingConfig (cfg : RecordingConfig) : Bool :=
  decide (0 < cfg.width) && decide (0 < cfg.height) && decide (0 < cfg.fps) &&
  decide (0 < cfg.bitrate) && decide (1 ≤ cfg.keyframeInterval) &&
  supportedCodec cfg.codec && decide (0 < cfg.scaleFactor)

/-- Modelled from the spec: the `CaptureTarget` invariant (§3): a region must
have positive width and height (a zero-area region is `InvalidConfig`). -/
def validTarget : CaptureTarget → Bool
  | .window _ => true
  | .display _ => true
  | .region _ _ _ w h => decide (0 < w) && decide (0 < h)

/-- Modelled from the spec: target resolution (§4.2): an unknown window id is
`WindowNotFound`, an unknown display id is `DisplayNotFound`; `none` means
the target resolves. -/
def resolveTarget (env : Env) : CaptureTarget → Option RigidErrorCode
  | .window i => if env.windows.contains i then none else some .windowNotFound
  | .display i => if env.displays.contains i then none else some .displayNotFound
  | .region d _ _ _ _ =>
      if env.displays.contains d then none else some .displayNotFound

/-- Modelled from the spec: `start(target, config)` (§4.2).  Valid only from
`Idle` — with a session already active the call errs and changes nothing
(the spec fixes no specific busy code, only that it is an error; the model
uses `RecordingFailed`).  From `Idle` the checks run in the spec's order:
`NotAuthorized`, then the config/target invariants (`InvalidConfig`), then
target resolution, then stream/encoder opening (`RecordingFailed`).  On
success the engine transitions to `Recording` and the output file is
created. -/
def startRecording (env : Env) (e : Engine) (target : CaptureTarget)
    (cfg : RecordingConfig) : StepResult :=
  match e.session with
  | some _ => ⟨.recordingFailed, e, []⟩
  | none =>
    if env.permissionGranted then
      if validRecordingConfig cfg && validTarget target then
        match resolveTarget env target with
        | none =>
          if env.captureOpens then
            ⟨.success, ⟨some ⟨target, cfg⟩⟩, [.write cfg.outputPath]⟩
          else ⟨.recordingFailed, e, []⟩
        | some err => ⟨err, e, []⟩
      else ⟨.invalidConfig, e, []⟩
    else ⟨.notAuthorized, e, []⟩

/-- Model of `rigid_capture_start_window_recording` (header lines 74-87):
builds the window target and the config from the discrete parameters. -/
def rigid_capture_start_window_recording (env : Env) (e : Engine)
    (windowId : Nat) (outputPath : String) (width height fps bitrate kfi : Nat)
    (codec : Int) (cursor audio : Bool) (scale : ℚ) : StepResult :=
  startRecording env e (.window windowId)
    ⟨outputPath, width, height, fps, bitrate, kfi, codec, cursor, audio, scale⟩

/-- Model of `rigid_capture_start_display_recording` (header lines 94-107). -/
def rigid_capture_start_display_recording (env : Env) (e : Engine)
    (displayId : Nat) (outputPath : String) (width height fps bitrate kfi : Nat)
    (codec : Int) (cursor audio : Bool) (scale : ℚ) : StepResult :=
  startRecording env e (.display displayId)
    ⟨outputPath, width, height, fps, bitrate, kfi, codec, cursor, audio, scale⟩

/-- Model of `rigid_capture_start_region_recording` (header lines 114-129):
the region's signed width/height also fix the output dimensions, since the
region entry point passes no separate width/height. -/
def rigid_capture_start_region_recording (env : Env) (e : Engine)
    (displayId : Nat) (x y w h : Int) (outputPath : String)
    (fps bitrate kfi : Nat) (codec : Int) (cursor audio : Bool)
    (scale : ℚ) : StepResult :=
  startRecording env e (.region displayId x y w h)
    ⟨outputPath, w.toNat, h.toNat, fps, bitrate, kfi, codec, cursor, audio,
     scale⟩

/-- Modelled from the spec: `stop()` (§4.2): outside `Recording` it returns
`NoRecording` and changes nothing; from `Recording` it finalizes the file and
returns to `Idle`, or fails with `EncodingFailed` leaving the partial file in
place (not deleted — the call intent was keep). -/
def rigid_capture_stop_recording (env : Env) (e : Engine) : StepResult :=
  match e.session with
  | none => ⟨.noRecording, e, []⟩
  | some s =>
    if env.finalizeOk then ⟨.success, ⟨none⟩, [.write s.config.outputPath]⟩
    else ⟨.encodingFailed, ⟨none⟩, []⟩

/-- Modelled from the spec: `cancel()` (§4.2): outside `Recording` it returns
`NoRecording` and changes nothing; from `Recording` it deletes the partial
output file and returns to `Idle`, never reporting cleanup errors. -/
def rigid_capture_cancel_recording (_env : Env) (e : Engine) : StepResult :=
  match e.session with
  | none => ⟨.noRecording, e, []⟩
  | some s => ⟨.success, ⟨none⟩, [.delete s.config.outputPath]⟩

/-- Modelled from the spec: `isRecording()` (§4.2), pure query — true iff the
state is `Recording`. -/
def rigid_capture_is_recording (e : Engine) : Bool :=
  e.session.isSome

/-- Modelled from the spec: the stateless screenshot path (§4.3): resolve the
target with the same errors as `start` (permission, invariants, resolution),
grab one frame, save it; a capture/encode error is `ScreenshotFailed` and
creates no file. -/
def screenshot (env : Env) (target : CaptureTarget) (outputPath : String)
    (scale : ℚ) (_cursor : Bool) : RigidErrorCode × List FileEvent :=
  if env.permissionGranted then
    if validTarget target && decide (0 < scale) then
      match resolveTarget env target with
      | none =>
        if env.captureOpens then (.success, [.write outputPath])
        else (.screenshotFailed, [])
      | some err => (err, [])
    else (.invalidConfig, [])
  else (.notAuthorized, [])

/-- Model of `rigid_capture_screenshot_window` (header lines 152-157). -/
def rigid_capture_screenshot_window (env : Env) (windowId : Nat)
    (outputPath : String) (scale : ℚ) (cursor : Bool) :
    RigidErrorCode × List FileEvent :=
  screenshot env (.window windowId) outputPath scale cursor

/-- Model of `rigid_capture_screenshot_display` (header lines 164-169). -/
def rigid_capture_screenshot_display (env : Env) (displayId : Nat)
    (outputPath : String) (scale : ℚ) (cursor : Bool) :
    RigidErrorCode × List FileEvent :=
  screenshot env (.display displayId) outputPath scale cursor

/-- Model of `rigid_capture_screenshot_region` (header lines 176-185). -/
def rigid_capture_screenshot_region (env : Env) (displayId : Nat)
    (x y w h : Int) (outputPath : String) (scale : ℚ) (cursor : Bool) :
    RigidErrorCode × List FileEvent :=
  screenshot env (.region displayId x y w h) outputPath scale cursor

/-! ## Spec-modelled compositor

`CompositionGraph` validation and the `RenderJob` frame loop (§3, §4.4,
§4.5), observed through an explicit event trace. -/

/-- Modelled from the spec: one clip of a `CompositionGraph` (§3): a source
media reference, a start time on the master timeline and a duration, in
seconds. -/
structure Clip where
  sourcePath : String
  startTime : ℚ
  duration : ℚ
deriving DecidableEq

/-- Modelled from the spec: a track is an ordered sequence of clips (§3). -/
abbrev Track := List Clip

/-- Modelled from the spec: the compositor configuration (§3, §6): tracks of
clips, the output path, output dimensions, fps and codec. -/
structure CompositorConfig where
  tracks : List Track
  outputPath : String
  width : Nat
  height : Nat
  fps : Nat
  codec : Int
deriving DecidableEq

/-- Modelled from the spec: two clips overlap in time when their half-open
master-timeline ranges `[start, start+duration)` intersect. -/
def clipsOverlap (a b : Clip) : Bool :=
  decide (a.startTime < b.startTime + b.duration) &&
  decide (b.startTime < a.startTime + a.duration)

/-- Modelled from the spec: the per-track invariant (§3): clip time ranges
within a track do not overlap pairwise. -/
def trackOverlapFree : Track → Bool
  | [] => true
  | c :: rest => rest.all (fun d => !clipsOverlap c d) && trackOverlapFree rest

/-- Modelled from the spec: `CompositionGraph` validation (§4.4), run before
any rendering: every clip's source is resolvable, no same-track overlap, all
numeric fields positive, output codec supported.  Failure is
`InvalidConfig`. -/
def validateGraph (env : Env) (cfg : CompositorConfig) : RigidErrorCode :=
  if cfg.tracks.all (fun t => t.all
        (fun c => env.mediaSources.contains c.sourcePath)) &&
      cfg.tracks.all trackOverlapFree &&
      cfg.tracks.all (fun t => t.all (fun c => decide (0 < c.duration))) &&
      decide (0 < cfg.width) && decide (0 < cfg.height) &&
      decide (0 < cfg.fps) && supportedCodec cfg.codec
  then .success else .invalidConfig

/-- Modelled from the spec: the end of a track on the master timeline — the
largest clip end, 0 for an empty track. -/
def trackEnd (t : Track) : ℚ :=
  t.foldr (fun c m => max (c.startTime + c.duration) m) 0

/-- Modelled from the spec: master timeline duration (§3) = max over tracks
of the last clip end. -/
def masterDuration (cfg : CompositorConfig) : ℚ :=
  cfg.tracks.foldr (fun t m => max (trackEnd t) m) 0

/-- Modelled from the spec: `framesTotal` of a `RenderJob` (§3, §4.5): the
master timeline is iterated in fixed steps derived from the output fps. -/
def framesTotal (cfg : CompositorConfig) : Nat :=
  (masterDuration cfg * (cfg.fps : ℚ)).ceil.toNat

/-- An observable event of a render job: file effects, a progress-callback
invocation `(exportId, currentFrame, totalFrames)`, or a completion-callback
invocation `(exportId, errorCode, outputPathOrError)`. -/
inductive RenderEvent where
  | fileWrite (path : String)
  | fileDelete (path : String)
  | progress (exportId : String) (currentFrame : Nat) (totalFrames : Nat)
  | completion (exportId : String) (errorCode : Int) (message : String)
deriving DecidableEq

/-- Whether an event is a progress-callback invocation. -/
def RenderEvent.isProgress : RenderEvent → Bool
  | .progress _ _ _ => true
  | _ => false

/-- Whether an event is a completion-callback invocation. -/
def RenderEvent.isCompletion : RenderEvent → Bool
  | .completion _ _ _ => true
  | _ => false

/-- The `currentFrame` values of the progress events of a trace, in order. -/
def progressFrames (tr : List RenderEvent) : List Nat :=
  tr.filterMap (fun e => match e with
    | .progress _ i _ => some i
    | _ => none)

/-- The `(errorCode, message)` payloads of the completion events of a
trace, in order. -/
def completionPayloads (tr : List RenderEvent) : List (Int × String) :=
  tr.filterMap (fun e => match e with
    | .completion _ c m => some (c, m)
    | _ => none)

/-- How many completion-callback invocations a trace contains. -/
def completionCount (tr : List RenderEvent) : Nat :=
  (tr.filter RenderEvent.isCompletion).length

/-- Whether the file at `p` exists after the trace's file effects have run,
starting from `init`. -/
def fileExistsAfter (tr : List RenderEvent) (p : String) (init : Bool) : Bool :=
  tr.foldl (fun b e => match e with
    | .fileWrite q => if q == p then true else b
    | .fileDelete q => if q == p then false else b
    | _ => b) init

/-- Modelled from the spec: the first `k` iterations of the frame loop
(§4.5): each iteration composites a frame, pushes it into the encoder
(a write to the output file), increments `framesEmitted` and invokes the
progress callback with the new count.  Frames are numbered `1..k`. -/
def renderLoopEvents (exportId outputPath : String) (total : Nat) :
    Nat → List RenderEvent
  | 0 => []
  | k + 1 => renderLoopEvents exportId outputPath total k ++
      [.fileWrite outputPath, .progress exportId (k + 1) total]

/-- Modelled from the spec: the `Cancelled` outcome code delivered through
the async completion callback (§7).  The spec fixes no numeric value, only
that it is nonzero and distinct from the eight hard errors of the closed
taxonomy; the model uses the least such value. -/
def CANCELLED_CODE : Int := 9

/-- Modelled from the spec: synchronous `render` (§4.5): validate
(`InvalidConfig` aborts before any file I/O), then run the full frame loop
on the caller's thread and return only after the job completes or fails.
Returns the status code and the trace of events emitted before the
return. -/
def rigid_compositor_render (env : Env) (exportId : String)
    (cfg : CompositorConfig) : Int × List RenderEvent :=
  match validateGraph env cfg with
  | .success =>
    if env.encodeOk then
      (0, renderLoopEvents exportId cfg.outputPath (framesTotal cfg)
            (framesTotal cfg))
    else (RigidErrorCode.encodingFailed.code, [])
  | err => (err.code, [])

/-- Modelled from the spec: asynchronous `renderAsync` (§4.5): validation
runs synchronously and a failure surfaces in the immediate return with no
background work; otherwise the call returns 0 immediately and the frame loop
runs in the background, ending in exactly one completion callback.
`cancelAfter = some k` models a `cancel()` request observed cooperatively at
the frame boundary after `k` frames: if the job is still running the partial
output file is deleted and the completion callback carries the `Cancelled`
outcome.  Returns the immediate return code and the full background
trace. -/
def rigid_compositor_render_async (env : Env) (exportId : String)
    (cfg : CompositorConfig) (cancelAfter : Option Nat) :
    Int × List RenderEvent :=
  match validateGraph env cfg with
  | .success =>
    if env.encodeOk then
      let n := framesTotal cfg
      match cancelAfter with
      | some k =>
        if k < n then
          (0, renderLoopEvents exportId cfg.outputPath n k ++
              [.fileDelete cfg.outputPath,
               .completion exportId CANCELLED_CODE ("cancelled")])
        else
          (0, renderLoopEvents exportId cfg.outputPath n n ++
              [.completion exportId 0 cfg.outputPath])
      | none =>
          (0, renderLoopEvents exportId cfg.outputPath n n ++
              [.completion exportId 0 cfg.outputPath])
    else
      (0, [.completion exportId RigidErrorCode.encodingFailed.code
            ("encoding failed")])
  | err => (err.code, [])

/-! ## Helper lemmas -/

theorem progressFrames_append (l1 l2 : List RenderEvent) :
    progressFrames (l1 ++ l2) = progressFrames l1 ++ progressFrames l2 := by
  simp [progressFrames, List.filterMap_append]

theorem completionPayloads_append (l1 l2 : List RenderEvent) :
    completionPayloads (l1 ++ l2) =
      completionPayloads l1 ++ completionPayloads l2 := by
  simp [completionPayloads, List.filterMap_append]

theorem completionCount_append (l1 l2 : List RenderEvent) :
    completionCount (l1 ++ l2) = completionCount l1 + completionCount l2 := by
  simp [completionCount, List.filter_append]

theorem fileExistsAfter_append (l1 l2 : List RenderEvent) (p : String)
    (init : Bool) :
    fileExistsAfter (l1 ++ l2) p init =
      fileExistsAfter l2 p (fileExistsAfter l1 p init) := by
  simp [fileExistsAfter, List.foldl_append]

theorem progressFrames_renderLoop (a b : String) (t : Nat) (k : Nat) :
    progressFrames (renderLoopEvents a b t k) = List.range' 1 k := by
  induction k with
  | zero => rfl
  | succ k ih =>
    rw [renderLoopEvents, progressFrames_append, ih, List.range'_1_concat]
    simp [progressFrames, Nat.add_comm]

theorem completionPayloads_renderLoop (a b : String) (t : Nat) (k : Nat) :
    completionPayloads (renderLoopEvents a b t k) = [] := by
  induction k with
  | zero => rfl
  | succ k ih =>
    rw [renderLoopEvents, completionPayloads_append, ih]
    rfl

theorem filter_completion_renderLoop (a b : String) (t : Nat) (k : Nat) :
    (renderLoopEvents a b t k).filter RenderEvent.isCompletion = [] := by
  induction k with
  | zero => rfl
  | succ k ih =>
    rw [renderLoopEvents, List.filter_append, ih]
    rfl

theorem completionCount_renderLoop (a b : String) (t : Nat) (k : Nat) :
    completionCount (renderLoopEvents a b t k) = 0 := by
  induction k with
  | zero => rfl
  | succ k ih =>
    rw [renderLoopEvents, completionCount_append, ih]
    rfl

theorem clipsOverlap_comm (a b : Clip) :
    clipsOverlap a b = clipsOverlap b a := by
  simp [clipsOverlap, Bool.and_comm]

theorem trackOverlapFree_iff (t : Track) :
    trackOverlapFree t = true ↔
      t.Pairwise (fun a b => clipsOverlap a b = false) := by
  induction t with
  | nil => simp [trackOverlapFree]
  | cons c rest ih =>
    simp [trackOverlapFree, List.pairwise_cons, ih, List.all_eq_true]

/-! ## Claims -/

/-- C1: every fallible call in the public interface (recording
start/stop/cancel, screenshots, compositor render) returns an `int32_t`
status code; 0 is success and the nonzero values form the closed
enumeration NotAuthorized=1, InvalidConfig=2, RecordingFailed=3,
EncodingFailed=4, NoRecording=5, ScreenshotFailed=6, WindowNotFound=7,
DisplayNotFound=8, shared by the recording, screenshot and compositor
paths of both kits. -/
theorem error_code_taxonomy :
    (∀ e : RigidErrorCode, e ∈ rigidErrorCodes) ∧
    rigidErrorCodes.map RigidErrorCode.code = [0, 1, 2, 3, 4, 5, 6, 7, 8] ∧
    (∀ e : RigidErrorCode, e.code = 0 ↔ e = .success) ∧
    (∀ e : TakaErrorCode, e ∈ takaErrorCodes) ∧
    takaErrorCodes.map TakaErrorCode.code = [0, 1, 2, 3, 4, 5, 6, 7, 8] ∧
    (rigidFunctions.filter (fun f => f.ret == CType.i32)).map CFun.name =
      ["rigid_capture_start_window_recording",
       "rigid_capture_start_display_recording",
       "rigid_capture_start_region_recording",
       "rigid_capture_stop_recording",
       "rigid_capture_cancel_recording",
       "rigid_capture_screenshot_window",
       "rigid_capture_screenshot_display",
       "rigid_capture_screenshot_region",
       "rigid_compositor_render",
       "rigid_compositor_render_async"] ∧
    (takaFunctions.filter (fun f => f.ret == CType.i32)).map CFun.name =
      ["taka_capture_start_window_recording",
       "taka_capture_start_display_recording",
       "taka_capture_start_region_recording",
       "taka_capture_stop_recording",
       "taka_capture_cancel_recording",
       "taka_capture_screenshot_window",
       "taka_capture_screenshot_display",
       "taka_capture_screenshot_region"] := by
  refine ⟨fun e => ?_, by decide, fun e => ?_, fun e => ?_, by decide, ?_⟩
  · cases e <;> simp [rigidErrorCodes]
  · cases e <;> simp [RigidErrorCode.code]
  · cases e <;> simp [takaErrorCodes]
  · constructor <;> decide

/-- C8: the two kits declare the same interface modulo the rigid/taka
renaming — same functions in the same order with the same parameter and
return types, same error-code values, same codec constants — except that
the compositor API (render, renderAsync, cancel and the two callback
types) exists only in `RigidCaptureKit.h`. -/
theorem rigid_taka_interface_equivalence :
    takaFunctions =
      (rigidFunctions.filter (fun f => !isCompositorFun f)).map renameFun ∧
    (rigidFunctions.filter isCompositorFun).map CFun.name =
      ["rigid_compositor_render", "rigid_compositor_render_async",
       "rigid_compositor_cancel"] ∧
    (∀ f ∈ takaFunctions,
      CType.progressCb ∉ f.params ∧ CType.completionCb ∉ f.params) ∧
    rigidErrorCodes.map RigidErrorCode.code =
      takaErrorCodes.map TakaErrorCode.code ∧
    [RIGID_CODEC_H264, RIGID_CODEC_HEVC, RIGID_CODEC_PRORES_422,
     RIGID_CODEC_PRORES_422_HQ] =
      [TAKA_CODEC_H264, TAKA_CODEC_HEVC, TAKA_CODEC_PRORES_422,
       TAKA_CODEC_PRORES_422_HQ] := by
  refine ⟨by decide, by decide, ?_, by decide, by decide⟩
  decide

/-- A valid 1280x720, 30fps, H264 recording config used by witnesses. -/
def cfgA : RecordingConfig :=
  ⟨"/tmp/a.mov", 1280, 720, 30, 6000000, 60, RIGID_CODEC_H264, true, false, 1⟩

/-- A recording config with an unsupported codec value, used by witnesses. -/
def cfgBadCodec : RecordingConfig :=
  ⟨"/tmp/b.mov", 1280, 720, 30, 6000000, 60, 7, true, false, 1⟩

/-- A live session on window 42, used by witnesses. -/
def sessionA : RecordingSession := ⟨.window 42, cfgA⟩

/-- An engine with an active recording session, used by witnesses. -/
def engineRecording : Engine := ⟨some sessionA⟩

/-- An idle engine, used by witnesses. -/
def engineIdle : Engine := ⟨none⟩

/-- A benign platform environment: permission granted, window 42 and
display 1 resolvable, streams and encoders working, one resolvable
compositor source. -/
def envA : Env := ⟨true, [42], [1], true, true, true, ["clip.mov"]⟩

/-- C3: with a session already active, a second start call of any
window/display/region variant returns a nonzero error, leaves the engine
(and so the original session) unchanged, performs no file I/O, and
isRecording still reports true afterwards. -/
theorem second_start_rejected (env : Env) (e : Engine)
    (s : RecordingSession) (h : e.session = some s)
    (target : CaptureTarget) (cfg : RecordingConfig) :
    (startRecording env e target cfg).code.code ≠ 0 ∧
    (startRecording env e target cfg).engine = e ∧
    (startRecording env e target cfg).fileOps = [] ∧
    rigid_capture_is_recording (startRecording env e target cfg).engine =
      true := by
  unfold startRecording
  rw [h]
  simp [rigid_capture_is_recording, RigidErrorCode.code, h]

theorem second_start_rejected_witness :
    (startRecording envA engineRecording (.display 1) cfgA).code.code ≠ 0 ∧
    (startRecording envA engineRecording (.display 1) cfgA).engine =
      engineRecording ∧
    (startRecording envA engineRecording (.display 1) cfgA).fileOps = [] ∧
    rigid_capture_is_recording
      (startRecording envA engineRecording (.display 1) cfgA).engine =
      true :=
  second_start_rejected envA engineRecording sessionA rfl (.display 1) cfgA

/-- C4: with no active session, stop and cancel both return NoRecording
(code 5) and leave the engine state unchanged: no state transition, no
resource release, no file touched. -/
theorem stop_cancel_without_session_noRecording (env : Env) (e : Engine)
    (h : e.session = none) :
    rigid_capture_stop_recording env e = ⟨.noRecording, e, []⟩ ∧
    rigid_capture_cancel_recording env e = ⟨.noRecording, e, []⟩ ∧
    RigidErrorCode.noRecording.code = 5 := by
  unfold rigid_capture_stop_recording rigid_capture_cancel_recording
  rw [h]
  exact ⟨rfl, rfl, rfl⟩

theorem stop_cancel_without_session_noRecording_witness :
    rigid_capture_stop_recording envA engineIdle =
      ⟨.noRecording, engineIdle, []⟩ ∧
    rigid_capture_cancel_recording envA engineIdle =
      ⟨.noRecording, engineIdle, []⟩ ∧
    RigidErrorCode.noRecording.code = 5 :=
  stop_cancel_without_session_noRecording envA engineIdle rfl

/-- C7: the supported codec set is exactly H264=0, HEVC=1, ProRes422=2,
ProRes422HQ=3 (the four interface constants, identical in both kits), and
a start-recording call on an authorized idle engine whose codec is outside
this set, or whose width, height, fps or bitrate is zero, fails with
InvalidConfig (2). -/
theorem unsupported_codec_invalidConfig :
    (RIGID_CODEC_H264 = 0 ∧ RIGID_CODEC_HEVC = 1 ∧
     RIGID_CODEC_PRORES_422 = 2 ∧ RIGID_CODEC_PRORES_422_HQ = 3 ∧
     TAKA_CODEC_H264 = 0 ∧ TAKA_CODEC_HEVC = 1 ∧
     TAKA_CODEC_PRORES_422 = 2 ∧ TAKA_CODEC_PRORES_422_HQ = 3) ∧
    (∀ c : Int, supportedCodec c = true ↔ (c = 0 ∨ c = 1 ∨ c = 2 ∨ c = 3)) ∧
    (∀ (env : Env) (e : Engine) (target : CaptureTarget)
       (cfg : RecordingConfig), e.session = none →
       env.permissionGranted = true →
       (supportedCodec cfg.codec = false ∨ cfg.width = 0 ∨ cfg.height = 0 ∨
         cfg.fps = 0 ∨ cfg.bitrate = 0) →
       (startRecording env e target cfg).code = .invalidConfig ∧
       RigidErrorCode.invalidConfig.code = 2) := by
  refine ⟨by decide, fun c => ?_, ?_⟩
  · simp [supportedCodec, RIGID_CODEC_H264, RIGID_CODEC_HEVC,
      RIGID_CODEC_PRORES_422, RIGID_CODEC_PRORES_422_HQ, or_assoc]
  · intro env e target cfg hs hp hbad
    have hvc : validRecordingConfig cfg = false := by
      unfold validRecordingConfig
      rcases hbad with h | h | h | h | h <;> simp [h]
    unfold startRecording
    rw [hs]
    simp [hp, hvc, RigidErrorCode.code]

theorem unsupported_codec_invalidConfig_witness :
    (startRecording envA engineIdle (.window 42) cfgBadCodec).code =
      .invalidConfig ∧ RigidErrorCode.invalidConfig.code = 2 :=
  unsupported_codec_invalidConfig.2.2 envA engineIdle (.window 42) cfgBadCodec
    rfl rfl (Or.inl (by decide))

/-- C10: the region entry points take x, y, width, height as signed
`int32_t` (so non-positive values are representable), the window/display
recording dimensions and rates are unsigned `uint32_t`, and every region
call with non-positive width or height is rejected with a nonzero error
code. -/
theorem region_signed_dims_rejected :
    findFun rigidFunctions ("rigid_capture_start_region_recording") =
      some ⟨"rigid_capture_start_region_recording",
        [.handle, .u32, .i32, .i32, .i32, .i32, .constCharPtr, .u32, .u32,
         .u32, .i32, .boolTy, .boolTy, .f32], .i32⟩ ∧
    findFun rigidFunctions ("rigid_capture_screenshot_region") =
      some ⟨"rigid_capture_screenshot_region",
        [.u32, .i32, .i32, .i32, .i32, .constCharPtr, .f32, .boolTy],
        .i32⟩ ∧
    findFun rigidFunctions ("rigid_capture_start_window_recording") =
      some ⟨"rigid_capture_start_window_recording",
        [.handle, .u32, .constCharPtr, .u32, .u32, .u32, .u32, .u32, .i32,
         .boolTy, .boolTy, .f32], .i32⟩ ∧
    findFun rigidFunctions ("rigid_capture_start_display_recording") =
      some ⟨"rigid_capture_start_display_recording",
        [.handle, .u32, .constCharPtr, .u32, .u32, .u32, .u32, .u32, .i32,
         .boolTy, .boolTy, .f32], .i32⟩ ∧
    findFun takaFunctions ("taka_capture_start_region_recording") =
      some ⟨"taka_capture_start_region_recording",
        [.handle, .u32, .i32, .i32, .i32, .i32, .constCharPtr, .u32, .u32,
         .u32, .i32, .boolTy, .boolTy, .f32], .i32⟩ ∧
    (∀ (env : Env) (e : Engine) (d : Nat) (x y w h : Int) (p q : String)
       (fps br kfi : Nat) (codec : Int) (cc ca : Bool) (sf : ℚ),
       w ≤ 0 ∨ h ≤ 0 →
       (rigid_capture_start_region_recording env e d x y w h p fps br kfi
          codec cc ca sf).code.code ≠ 0 ∧
       (rigid_capture_screenshot_region env d x y w h q sf cc).1.code ≠
         0) := by
  refine ⟨by decide, by decide, by decide, by decide, by decide, ?_⟩
  intro env e d x y w h p q fps br kfi codec cc ca sf hwh
  have hvt : validTarget (.region d x y w h) = false := by
    rcases hwh with hw | hh
    · simp [validTarget, not_lt.mpr hw]
    · simp [validTarget, not_lt.mpr hh]
  constructor
  · unfold rigid_capture_start_region_recording startRecording
    cases hsess : e.session with
    | some s => simp [RigidErrorCode.code]
    | none =>
      by_cases hp : env.permissionGranted
      · simp [hp, hvt, RigidErrorCode.code]
      · simp [hp, RigidErrorCode.code]
  · unfold rigid_capture_screenshot_region screenshot
    by_cases hperm : env.permissionGranted
    · simp [hperm, hvt, RigidErrorCode.code]
    · simp [hperm, RigidErrorCode.code]

theorem region_signed_dims_rejected_witness :
    (rigid_capture_start_region_recording envA engineIdle 1 0 0 (-1) 100
      ("/tmp/r.mov") 30 1000 60 0 true false 1).code.code ≠ 0 ∧
    (rigid_capture_screenshot_region envA 1 0 0 (-1) 100 ("/tmp/r.png") 1
      true).1.code ≠ 0 :=
  region_signed_dims_rejected.2.2.2.2.2 envA engineIdle 1 0 0 (-1) 100
    ("/tmp/r.mov") ("/tmp/r.png") 30 1000 60 0 true false 1
    (Or.inl (by decide))

/-- The spec's overlap example, clip A on [0s,5s) of track 0. -/
def clipA : Clip := ⟨"a.mov", 0, 5⟩

/-- The spec's overlap example, clip B on [3s,8s) of the same track. -/
def clipB : Clip := ⟨"b.mov", 3, 5⟩

/-- A composition whose single track holds the two overlapping clips of the
spec's example. -/
def cfgOverlap : CompositorConfig :=
  ⟨[[clipA, clipB]], "/tmp/out.mov", 1920, 1080, 30, 0⟩

/-- A one-clip composition that validates against `envA`: one second of
clip.mov at 2 fps, so framesTotal = 2. -/
def clipC : Clip := ⟨"clip.mov", 0, 1⟩

/-- A valid composition used by the render witnesses. -/
def cfgGood : CompositorConfig :=
  ⟨[[clipC]], "/tmp/out2.mov", 1920, 1080, 2, 0⟩

/-- C5: a composition whose graph has two clips of one track overlapping in
time is rejected by both render and renderAsync with InvalidConfig (2),
and the rejection happens before any file I/O — the returned trace is
empty, so zero I/O is performed and no output file is created. -/
theorem overlapping_clips_invalidConfig_no_io (env : Env)
    (cfg : CompositorConfig) (t : Track) (ht : t ∈ cfg.tracks)
    (i j : Nat) (hi : i < t.length) (hj : j < t.length) (hij : i ≠ j)
    (hov : clipsOverlap (t.get ⟨i, hi⟩) (t.get ⟨j, hj⟩) = true)
    (exportId : String) :
    rigid_compositor_render env exportId cfg =
      (RigidErrorCode.invalidConfig.code, []) ∧
    (∀ ca, rigid_compositor_render_async env exportId cfg ca =
      (RigidErrorCode.invalidConfig.code, [])) ∧
    RigidErrorCode.invalidConfig.code = 2 := by
  have hfree : trackOverlapFree t = false := by
    rcases Bool.eq_false_or_eq_true (trackOverlapFree t) with hb | hb
    swap
    · exact hb
    · exfalso
      have hget := List.pairwise_iff_getElem.mp ((trackOverlapFree_iff t).mp hb)
      rw [List.get_eq_getElem, List.get_eq_getElem] at hov
      rcases Nat.lt_or_ge i j with hlt | hge
      · exact absurd hov (by simp [hget i j hi hj hlt])
      · have hgt : j < i := Nat.lt_of_le_of_ne hge (Ne.symm hij)
        rw [clipsOverlap_comm] at hov
        exact absurd hov (by simp [hget j i hj hi hgt])
  have hall : cfg.tracks.all trackOverlapFree = false := by
    rcases Bool.eq_false_or_eq_true (cfg.tracks.all trackOverlapFree)
      with hb | hb
    · exact absurd (List.all_eq_true.mp hb t ht) (by simp [hfree])
    · exact hb
  have hval : validateGraph env cfg = .invalidConfig := by
    unfold validateGraph
    simp [hall]
  refine ⟨?_, fun ca => ?_, rfl⟩
  · unfold rigid_compositor_render
    rw [hval]
  · unfold rigid_compositor_render_async
    rw [hval]

theorem overlapping_clips_invalidConfig_no_io_witness :
    rigid_compositor_render envA ("exp1") cfgOverlap =
      (RigidErrorCode.invalidConfig.code, []) ∧
    (∀ ca, rigid_compositor_render_async envA ("exp1") cfgOverlap ca =
      (RigidErrorCode.invalidConfig.code, [])) ∧
    RigidErrorCode.invalidConfig.code = 2 :=
  overlapping_clips_invalidConfig_no_io envA cfgOverlap [clipA, clipB]
    (by simp [cfgOverlap]) 0 1 (by norm_num) (by norm_num) (by norm_num)
    (by show clipsOverlap clipA clipB = true
        norm_num [clipA, clipB, clipsOverlap]) ("exp1")

/-- C6: a successful synchronous render of a graph with framesTotal = N
returns 0 and its progress-callback invocations carry strictly increasing
(hence non-decreasing) currentFrame values, namely 1..N, the final
invocation reporting currentFrame = N; the trace holds no terminal
(completion) callback — the job terminates by the return, after which the
trace emits nothing, so no progress callback follows the terminal
return. -/
theorem sync_render_progress_monotone (env : Env) (cfg : CompositorConfig)
    (exportId : String) (hval : validateGraph env cfg = .success)
    (henc : env.encodeOk = true) :
    (rigid_compositor_render env exportId cfg).1 = 0 ∧
    progressFrames (rigid_compositor_render env exportId cfg).2 =
      List.range' 1 (framesTotal cfg) ∧
    List.Chain' (· < ·)
      (progressFrames (rigid_compositor_render env exportId cfg).2) ∧
    (framesTotal cfg ≠ 0 →
      (progressFrames (rigid_compositor_render env exportId cfg).2).getLast?
        = some (framesTotal cfg)) ∧
    (rigid_compositor_render env exportId cfg).2.filter
      RenderEvent.isCompletion = [] := by
  have hr : rigid_compositor_render env exportId cfg =
      (0, renderLoopEvents exportId cfg.outputPath (framesTotal cfg)
        (framesTotal cfg)) := by
    unfold rigid_compositor_render
    rw [hval]
    simp [henc]
  rw [hr]
  refine ⟨rfl, progressFrames_renderLoop _ _ _ _, ?_, ?_,
    filter_completion_renderLoop _ _ _ _⟩
  · rw [progressFrames_renderLoop]
    exact (List.pairwise_lt_range' 1 (framesTotal cfg)).chain'
  · intro hn
    rw [progressFrames_renderLoop, List.getLast?_range']
    simp only [hn, if_false]
    congr 1
    omega

theorem sync_render_progress_monotone_witness :
    (rigid_compositor_render envA ("exp2") cfgGood).1 = 0 ∧
    progressFrames (rigid_compositor_render envA ("exp2") cfgGood).2 =
      List.range' 1 (framesTotal cfgGood) ∧
    List.Chain' (· < ·)
      (progressFrames (rigid_compositor_render envA ("exp2") cfgGood).2) ∧
    (framesTotal cfgGood ≠ 0 →
      (progressFrames
        (rigid_compositor_render envA ("exp2") cfgGood).2).getLast? =
        some (framesTotal cfgGood)) ∧
    (rigid_compositor_render envA ("exp2") cfgGood).2.filter
      RenderEvent.isCompletion = [] :=
  sync_render_progress_monotone envA cfgGood ("exp2")
    (by norm_num [validateGraph, cfgGood, envA, clipC, trackOverlapFree,
      clipsOverlap, supportedCodec, RIGID_CODEC_H264, RIGID_CODEC_HEVC,
      RIGID_CODEC_PRORES_422, RIGID_CODEC_PRORES_422_HQ]) rfl

/-- C2: cancelling a renderAsync job before completion yields exactly one
completion-callback invocation, whose error code is the Cancelled
outcome — nonzero and distinct from the code of every hard error of the
closed taxonomy — while the renderAsync call itself returned 0 (the
Cancelled outcome is never a hard error return), and no output file
remains at the job's target path. -/
theorem renderAsync_cancel_exactly_one_completion (env : Env)
    (cfg : CompositorConfig) (exportId : String) (k : Nat)
    (hval : validateGraph env cfg = .success) (henc : env.encodeOk = true)
    (hk : k < framesTotal cfg) :
    (rigid_compositor_render_async env exportId cfg (some k)).1 = 0 ∧
    completionCount
      (rigid_compositor_render_async env exportId cfg (some k)).2 = 1 ∧
    completionPayloads
      (rigid_compositor_render_async env exportId cfg (some k)).2 =
      [(CANCELLED_CODE, "cancelled")] ∧
    CANCELLED_CODE ≠ 0 ∧
    (∀ e : RigidErrorCode, e ≠ .success → e.code ≠ CANCELLED_CODE) ∧
    fileExistsAfter
      (rigid_compositor_render_async env exportId cfg (some k)).2
      cfg.outputPath false = false := by
  have hr : rigid_compositor_render_async env exportId cfg (some k) =
      (0, renderLoopEvents exportId cfg.outputPath (framesTotal cfg) k ++
        [.fileDelete cfg.outputPath,
         .completion exportId CANCELLED_CODE ("cancelled")]) := by
    unfold rigid_compositor_render_async
    rw [hval]
    simp [henc, hk]
  rw [hr]
  refine ⟨rfl, ?_, ?_, by norm_num [CANCELLED_CODE], ?_, ?_⟩
  · rw [completionCount_append, completionCount_renderLoop]
    rfl
  · rw [completionPayloads_append, completionPayloads_renderLoop]
    rfl
  · intro e he
    cases e <;> norm_num [RigidErrorCode.code, CANCELLED_CODE]
  · rw [fileExistsAfter_append]
    simp [fileExistsAfter]

theorem renderAsync_cancel_exactly_one_completion_witness :
    (rigid_compositor_render_async envA ("exp3") cfgGood (some 1)).1 = 0 ∧
    completionCount
      (rigid_compositor_render_async envA ("exp3") cfgGood (some 1)).2 =
      1 ∧
    completionPayloads
      (rigid_compositor_render_async envA ("exp3") cfgGood (some 1)).2 =
      [(CANCELLED_CODE, "cancelled")] ∧
    CANCELLED_CODE ≠ 0 ∧
    (∀ e : RigidErrorCode, e ≠ .success → e.code ≠ CANCELLED_CODE) ∧
    fileExistsAfter
      (rigid_compositor_render_async envA ("exp3") cfgGood (some 1)).2
      cfgGood.outputPath false = false :=
  renderAsync_cancel_exactly_one_completion envA cfgGood ("exp3") 1
    (by norm_num [validateGraph, cfgGood, envA, clipC, trackOverlapFree,
      clipsOverlap, supportedCodec, RIGID_CODEC_H264, RIGID_CODEC_HEVC,
      RIGID_CODEC_PRORES_422, RIGID_CODEC_PRORES_422_HQ]) rfl
    (by norm_num [framesTotal, masterDuration, trackEnd, cfgGood, clipC,
      Rat.ceil])

/-- C9: `rigid_compositor_cancel` takes no parameters — in particular no
export id, so it can only target the single process-wide active render
job — and returns void, so the caller can never observe a failure or a
no-job-active error from the cancel call itself. -/
theorem compositor_cancel_signature :
    findFun rigidFunctions ("rigid_compositor_cancel") =
      some ⟨"rigid_compositor_cancel", [], CType.voidTy⟩ ∧
    (rigidFunctions.filter
      (fun f => f.name == "rigid_compositor_cancel")).length = 1 ∧
    (∀ f ∈ rigidFunctions, f.name = "rigid_compositor_cancel" →
      f.params = [] ∧ f.ret = CType.voidTy) := by
  refine ⟨by decide, by decide, ?_⟩
  decide

end Rigid
